import Mathlib

/-!
Verification of the managed download subsystem of ns-emu-tools
(`module/downloader.py`) against its natural-language specification.

The Python code is shallowly embedded: each relevant function is translated
into an executable Lean definition over explicit state (poll traces, file
descriptors, association lists standing for Python dicts), and the spec's
claims are stated and settled as theorems about those definitions.
-/

namespace Downloader

/-! ## Poll loop (`_download`, lines 182-193)

The foreground poll loop repeatedly calls `aria2.get_download(info.gid)`.
A successful call returns a fresh status (the loop exits when it is no
longer active); a failing call increments `retry_count` and re-raises the
caught exception as soon as `retry_count > 15`.  The environment's answers
to the successive `get_download` calls are modelled as a list of steps. -/

/-- One answer of the engine to a `get_download` poll: either a successful
status refresh carrying whether the transfer is still active, or a
transport-level failure (the `except` branch). -/
inductive PollStep where
  | success (active : Bool)
  | failure
  deriving DecidableEq, Repr

/-- Outcome of running the poll loop on a trace of poll answers. -/
inductive PollOutcome where
  /-- The loop exited normally: a successful poll reported a non-active
  status (`while info.is_active` became false). -/
  | finished
  /-- The caught exception was re-raised (`if retry_count > 15: raise e`). -/
  | raised
  /-- The trace was exhausted while the loop would still continue. -/
  | pending
  deriving DecidableEq, Repr

/-- The poll loop of `_download`: `retry_count` starts at the first
argument; each `failure` increments it and re-raises once it exceeds 15;
each `success` leaves it unchanged (the code never resets it) and exits
the loop when the refreshed status is not active. -/
def pollLoop : Nat → List PollStep → PollOutcome
  | _, [] => .pending
  | retryCount, .failure :: rest =>
      if retryCount + 1 > 15 then .raised else pollLoop (retryCount + 1) rest
  | retryCount, .success active :: rest =>
      if active then pollLoop retryCount rest else .finished

/-- Number of `failure` steps in a trace. -/
def failCount (t : List PollStep) : Nat := t.countP (· = PollStep.failure)

/-- Length of the longest run of consecutive `failure` steps in a trace. -/
def maxFailRun : List PollStep → Nat :=
  go 0 0
where
  /-- `go cur best t`: `cur` is the length of the current failure run,
  `best` the longest seen so far. -/
  go (cur best : Nat) : List PollStep → Nat
    | [] => max cur best
    | .failure :: rest => go (cur + 1) best rest
    | .success _ :: rest => go 0 (max cur best) rest

/-! ## Engine initialization retry (`init_aria2`, lines 121-133)

`init_aria2` runs `for _ in range(2): try: _init_aria2(); return except e:
ex = e; reset`, then `raise ex`.  The successive outcomes of the calls to
`_init_aria2` are modelled as a function from the attempt index to
`Option ε` (`none` = the attempt succeeded, `some e` = it raised `e`). -/

/-- Result of `init_aria2`: how the call returned, together with how many
times `_init_aria2` was actually attempted. -/
inductive InitOutcome (ε : Type) where
  /-- `_init_aria2` succeeded and `init_aria2` returned. -/
  | ok (attemptsMade : Nat)
  /-- The loop was exhausted and `raise ex` re-raised the stored
  exception (`none` would mean `ex` was never assigned). -/
  | raised (e : Option ε) (attemptsMade : Nat)
  deriving DecidableEq, Repr

/-- The `for _ in range(n)` retry loop of `init_aria2`: `remaining`
iterations are left, `made` attempts have been made, `ex` is the stored
last exception.  On failure the engine globals are reset
(`aria2 = aria2_process = None`), so every attempt re-runs the full
launch-and-handshake sequence; this is why each attempt's outcome can be
read off the attempt index alone. -/
def initRetryLoop (f : Nat → Option ε) : Nat → Nat → Option ε → InitOutcome ε
  | 0, made, ex => .raised ex made
  | remaining + 1, made, _ =>
    match f made with
    | none => .ok (made + 1)
    | some e => initRetryLoop f remaining (made + 1) (some e)

/-- `init_aria2`: two loop iterations, no attempts made yet, no stored
exception. -/
def init_aria2 (f : Nat → Option ε) : InitOutcome ε :=
  initRetryLoop f 2 0 none

/-- Attempts made, for either outcome. -/
def InitOutcome.attempts : InitOutcome ε → Nat
  | .ok n => n
  | .raised _ n => n

/-! ## Terminal classification (`_download`, lines 196-220)

After the poll loop exits, `_download` inspects the final status:
paused → raise `DownloadPaused`; error code `'13'` → return the status as
a success; error code `'31'` → if the transfer is not complete remove
every output file that exists and is a regular file, then raise
`DownloadInterrupted`; any other non-zero code → raise a generic
`RuntimeError`; code `'0'` but not complete → raise
`DownloadNotCompleted`; otherwise call `aria2.purge()` and return.
The filesystem facts the code queries (`exists()`, `is_file()`, whether
`os.remove` would raise) are carried on each file descriptor. -/

/-- One entry of `info.files` together with the filesystem facts
`_download` queries about it: whether `file.path.exists()`, whether
`file.path.is_file()`, and whether `os.remove(file.path)` would raise. -/
structure FsFile where
  path : String
  onDisk : Bool
  isFile : Bool
  removeRaises : Bool
  deriving DecidableEq, Repr

/-- The final `aria2p.Download` status inspected after the poll loop. -/
structure DownloadInfo where
  isPaused : Bool
  errorCode : String
  errorMessage : String
  isComplete : Bool
  files : List FsFile
  name : String
  status : String
  deriving DecidableEq, Repr

/-- The typed errors `_download` can raise from its terminal phase. -/
inductive DlError where
  | downloadPaused
  | downloadInterrupted
  | downloadNotCompleted (name status : String)
  | runtimeError (code msg : String)
  /-- An `OSError` escaping from the unguarded `os.remove(file.path)`. -/
  | osError (path : String)
  deriving DecidableEq, Repr

/-- `for file in info.files: if file.path.exists() and file.path.is_file():
os.remove(file.path)`.  Files are processed in order; a raising `remove`
aborts the iteration, leaving the raising file and all later files
untouched.  Returns the updated file states and the raising path, if
any. -/
def removeFiles : List FsFile → List FsFile × Option String
  | [] => ([], none)
  | f :: rest =>
    if f.onDisk && f.isFile then
      if f.removeRaises then (f :: rest, some f.path)
      else
        let (rest', err) := removeFiles rest
        ({ f with onDisk := false } :: rest', err)
    else
      let (rest', err) := removeFiles rest
      (f :: rest', err)

/-- Result of the terminal phase: either the status is returned (with the
number of `aria2.purge()` calls made on that path), or an error is raised
(with the file states at the moment of the raise). -/
inductive FinalizeResult where
  | ok (purgeCalls : Nat) (info : DownloadInfo)
  | err (e : DlError) (files : List FsFile)
  deriving DecidableEq, Repr

/-- The terminal phase of `_download` (lines 196-220), as a pure function
of the final status. -/
def finalize (info : DownloadInfo) : FinalizeResult :=
  if info.isPaused then .err .downloadPaused info.files
  else if info.errorCode ≠ "0" then
    if info.errorCode = "13" then .ok 0 info
    else if info.errorCode = "31" then
      if !info.isComplete then
        match removeFiles info.files with
        | (files', none) => .err .downloadInterrupted files'
        | (files', some p) => .err (.osError p) files'
      else .err .downloadInterrupted info.files
    else .err (.runtimeError info.errorCode info.errorMessage) info.files
  else if !info.isComplete then
    .err (.downloadNotCompleted info.name info.status) info.files
  else .ok 1 info

/-- Whether a `FinalizeResult` is a success (the status was returned). -/
def FinalizeResult.isOk : FinalizeResult → Bool
  | .ok _ _ => true
  | .err _ _ => false

/-- Number of `aria2.purge()` calls made (errors never reach the purge). -/
def FinalizeResult.purges : FinalizeResult → Nat
  | .ok n _ => n
  | .err _ _ => 0

/-! ## Transfer dispatch (`download`, lines 148-162)

`download` resolves the engine executable; if an engine instance is
already running or an executable was found it takes the engine path,
otherwise a background request is rejected with a `RuntimeError` and a
foreground request falls back to `_simple_download`. -/

/-- Ambient state `download` consults: whether the `aria2` global is a
live instance, and the result of `_ensure_aria2_path()` (`none` = no
executable found, in which case the helper returns `None`). -/
structure DispatchEnv where
  aria2Running : Bool
  resolvedPath : Option String
  deriving DecidableEq, Repr

/-- Which path `download` takes for a request. -/
inductive DispatchResult where
  /-- `_download(url, save_dir, options, download_in_background)`. -/
  | engine (background : Bool)
  /-- `raise RuntimeError('download_in_background is not supported without aria2')`. -/
  | backgroundError
  /-- `_simple_download(url, save_dir, options)`. -/
  | fallback
  deriving DecidableEq, Repr

/-- The dispatch logic of `download` (the `no_proxy` save/restore around
it does not affect which path is taken). -/
def download (env : DispatchEnv) (downloadInBackground : Bool) : DispatchResult :=
  if env.aria2Running || env.resolvedPath.isSome then .engine downloadInBackground
  else if downloadInBackground then .backgroundError
  else .fallback

/-! ## Fallback transport (`_simple_download`, lines 263-289)

The streaming fallback: GET the url, resolve the filename, delete a
pre-existing destination file, stream the body to disk; on any exception
inside the `try`, delete the partially written file if it exists (an
unguarded `unlink`) and raise a wrapping `RuntimeError`.  The points at
which the environment can fail are modelled as explicit booleans. -/

/-- Failure points of one `_simple_download` run: whether
`requests.get`/`raise_for_status` raises, whether the resolved
destination file exists beforehand, whether the pre-download
`file_path.unlink()` raises, whether opening/streaming the body raises,
and whether the cleanup `file_path.unlink()` in the `except` block
raises. -/
structure SimpleEnv where
  getRaises : Bool
  fileExists0 : Bool
  initialUnlinkRaises : Bool
  writeRaises : Bool
  cleanupUnlinkRaises : Bool
  deriving DecidableEq, Repr

/-- How a `_simple_download` run terminates. -/
inductive SimpleKind where
  /-- Returns `SimpleDownloadInfo(file_path)`. -/
  | ok
  /-- Raises `RuntimeError('下载失败: ...')` wrapping the original cause. -/
  | wrappedError
  /-- The cleanup `unlink` itself raised; that exception escapes raw,
  replacing the intended wrapped error. -/
  | rawError
  deriving DecidableEq, Repr

/-- Observable outcome of a `_simple_download` run: how it terminated,
whether the destination file is on disk afterwards, and whether the
pre-download `unlink` of an existing destination file was performed. -/
structure SimpleOutcome where
  kind : SimpleKind
  fileOnDisk : Bool
  deletedExisting : Bool
  deriving DecidableEq, Repr

/-- The `except` block of `_simple_download` (lines 285-289), entered with
the destination file on disk: `file_path.unlink()` then
`raise RuntimeError(...)`; a raising `unlink` escapes unguarded. -/
def simpleCleanup (env : SimpleEnv) (deletedExisting : Bool) : SimpleOutcome :=
  if env.cleanupUnlinkRaises then ⟨.rawError, true, deletedExisting⟩
  else ⟨.wrappedError, false, deletedExisting⟩

/-- `_simple_download` as a function of its failure environment.  The
`try` body: GET (may raise with `file_path` still `None`, skipping
cleanup); resolve filename; `if file_path.exists(): file_path.unlink()`
(a raise here is caught and cleaned up like any other); `open('wb')`
creates the file and the body is streamed into it (a raise mid-stream is
caught with the partial file on disk). -/
def simple_download (env : SimpleEnv) : SimpleOutcome :=
  if env.getRaises then ⟨.wrappedError, env.fileExists0, false⟩
  else if env.fileExists0 && env.initialUnlinkRaises then
    simpleCleanup env false
  else
    let deletedExisting := env.fileExists0
    if env.writeRaises then simpleCleanup env deletedExisting
    else ⟨.ok, true, deletedExisting⟩

/-! ## Option-map construction (`_download`, lines 169-179)

Python dicts are modelled as association lists with unique keys kept in
insertion order: `d[k] = v` overwrites in place or appends,
`d.update(u)` folds the former over `u`, `d.get(k)` finds the binding. -/

/-- `d[k] = v`: overwrite the existing binding in place, else append. -/
def dictSet (d : List (String × String)) (k v : String) : List (String × String) :=
  if d.any (fun p => p.1 == k) then
    d.map (fun p => if p.1 == k then (k, v) else p)
  else d ++ [(k, v)]

/-- `d.update(u)`: set each binding of `u` in order. -/
def dictUpdate (d u : List (String × String)) : List (String × String) :=
  u.foldl (fun acc p => dictSet acc p.1 p.2) d

/-- `d.get(k)`. -/
def dictGet (d : List (String × String)) (k : String) : Option String :=
  (d.find? (fun p => p.1 == k)).map (fun p => p.2)

/-- `str(Path('./download/'))`, the module-level default directory. -/
def download_path : String := "download"

/-- Lines 169-171: the fresh per-request defaults — the proxy-derived map
returned by `init_download_options_with_proxy(url)` with
`'auto-file-renaming'` and `'allow-overwrite'` forced to `'false'`. -/
def engineDefaults (proxyDefaults : List (String × String)) : List (String × String) :=
  dictSet (dictSet proxyDefaults "auto-file-renaming" "false") "allow-overwrite" "false"

/-- Lines 169-178: the option map submitted to `aria2.add_uris`.  The
defaults are built, the caller's options (when not `None`) are merged on
top, and then `options['dir']` is assigned from `save_dir` or the
module-level download directory. -/
def buildOptions (proxyDefaults : List (String × String))
    (options : Option (List (String × String))) (saveDir : Option String) :
    List (String × String) :=
  let tmp := engineDefaults proxyDefaults
  let tmp := match options with
    | some o => dictUpdate tmp o
    | none => tmp
  match saveDir with
  | some d => dictSet tmp "dir" d
  | none => dictSet tmp "dir" download_path

/-! ## Fallback filename resolution (`_resolve_simple_filename`, lines 238-260)

The Python string operations are modelled on `List Char`:
`sep in s` / `s.split(sep, 1)[1]` via `afterFirst`, `s.split(';')[0]` via
`takeWhile`, `s.strip()` / `s.strip(chars)` via `pyStrip`, and
`urllib.parse.unquote` as percent-decoding.  `urlparse(url).path` and
`os.path.basename` are modelled from the Python standard library's
documented behaviour on the URLs this code sees: the path is what follows
the `scheme://netloc` part up to the query/fragment, the basename is what
follows the last slash. -/

/-- The suffix of the haystack after the first occurrence of `needle`
(Python `s.split(needle, 1)[1]`), or `none` when `needle` does not occur
(`needle in s` is false). -/
def afterFirst (needle : List Char) : List Char → Option (List Char)
  | [] => if needle.isEmpty then some [] else none
  | c :: rest =>
    if needle.isPrefixOf (c :: rest) then some ((c :: rest).drop needle.length)
    else afterFirst needle rest

/-- Python `needle in hay`. -/
def hasSub (needle hay : List Char) : Bool := (afterFirst needle hay).isSome

/-- Python `str.strip()` whitespace. -/
def isPyWs (c : Char) : Bool :=
  c == ' ' || c == Char.ofNat 9 || c == Char.ofNat 10 || c == Char.ofNat 13
    || c == Char.ofNat 11 || c == Char.ofNat 12

/-- The two quote characters of the Python literal passed to `strip`. -/
def isQuote (c : Char) : Bool := c == Char.ofNat 34 || c == Char.ofNat 39

/-- Python `str.strip`: drop characters satisfying `p` from both ends. -/
def pyStrip (p : Char → Bool) (l : List Char) : List Char :=
  ((l.dropWhile p).reverse.dropWhile p).reverse

/-- Value of a hexadecimal digit. -/
def hexVal (c : Char) : Option Nat :=
  if Char.ofNat 48 ≤ c ∧ c ≤ Char.ofNat 57 then some (c.toNat - 48)
  else if Char.ofNat 97 ≤ c ∧ c ≤ Char.ofNat 102 then some (c.toNat - 87)
  else if Char.ofNat 65 ≤ c ∧ c ≤ Char.ofNat 70 then some (c.toNat - 55)
  else none

/-- `urllib.parse.unquote`, modelled as byte-level percent-decoding: each
`%XX` with two hex digits becomes the character of code `XX`; anything
else is kept verbatim. -/
def unquoteChars : List Char → List Char
  | [] => []
  | c :: h1 :: h2 :: rest2 =>
    if c == '%' then
      match hexVal h1, hexVal h2 with
      | some a, some b => Char.ofNat (16 * a + b) :: unquoteChars rest2
      | _, _ => c :: unquoteChars (h1 :: h2 :: rest2)
    else c :: unquoteChars (h1 :: h2 :: rest2)
  | c :: rest => c :: unquoteChars rest

/-- `os.path.basename`: the part after the last slash. -/
def basenameChars (l : List Char) : List Char :=
  (l.reverse.takeWhile (fun c => !(c == '/'))).reverse

/-- `urlparse(url).path`: what follows `scheme://netloc` (everything when
no `://` occurs), cut at the first `?` or `#`. -/
def urlPathChars (url : List Char) : List Char :=
  let rest := match afterFirst ([':', '/', '/']) url with
    | some r => r.dropWhile (fun c => !(c == '/'))
    | none => url
  rest.takeWhile (fun c => !(c == '?') && !(c == '#'))

/-- `"filename*="` as a character list. -/
def starNeedle : List Char := "filename*=".data

/-- `"filename="` as a character list. -/
def plainNeedle : List Char := "filename=".data

/-- The two-apostrophe charset separator of RFC 5987 extended values. -/
def charsetSep : List Char := [Char.ofNat 39, Char.ofNat 39]

/-- Lines 247-250: the value parsed out of a `filename*=` parameter —
text up to the next `;`, with everything up to a charset separator
dropped, stripped of whitespace then quotes, percent-decoded. -/
def cdStarValue (cd : List Char) : List Char :=
  let f := ((afterFirst starNeedle cd).getD []).takeWhile (fun c => !(c == ';'))
  let f := match afterFirst charsetSep f with
    | some r => r
    | none => f
  unquoteChars (pyStrip isQuote (pyStrip isPyWs f))

/-- Lines 252-253: the value parsed out of a `filename=` parameter. -/
def cdPlainValue (cd : List Char) : List Char :=
  let f := ((afterFirst plainNeedle cd).getD []).takeWhile (fun c => !(c == ';'))
  unquoteChars (pyStrip isQuote (pyStrip isPyWs f))

/-- Lines 245-253: the filename extracted from a `Content-Disposition`
header value (`[]` plays the role of Python's falsy `None`/`''`): the
`filename*=` parse when present and non-empty, else the `filename=`
parse when that parameter occurs. -/
def resolveCd (cd : List Char) : List Char :=
  let f1 := if hasSub starNeedle cd then cdStarValue cd else []
  if f1.isEmpty && hasSub plainNeedle cd then cdPlainValue cd else f1

/-- Lines 239-242: the explicit `out` option, when `options` is a dict
(`""` for Python's falsy `None`). -/
def tierOut (options : Option (List (String × String))) : String :=
  match options with
  | some d => (dictGet d "out").getD ""
  | none => ""

/-- The `filename*=` tier on its own. -/
def tierStar (cd : Option String) : List Char :=
  match cd with
  | some c => if hasSub starNeedle c.data then cdStarValue c.data else []
  | none => []

/-- The `filename=` tier on its own. -/
def tierPlain (cd : Option String) : List Char :=
  match cd with
  | some c => if hasSub plainNeedle c.data then cdPlainValue c.data else []
  | none => []

/-- Lines 254-257: the URL-path tier — the decoded basename of the URL
path. -/
def tierUrl (url : String) : List Char :=
  unquoteChars (basenameChars (urlPathChars url.data))

/-- `_resolve_simple_filename(url, response, options)`.  The response is
represented by its `content-disposition` header, and
`int(time.time() * 1000)` by the parameter `nowMs`. -/
def resolve_simple_filename (url : String) (cd : Option String)
    (options : Option (List (String × String))) (nowMs : Nat) : String :=
  let specified := tierOut options
  if specified ≠ "" then specified
  else
    let filename := match cd with
      | some c => resolveCd c.data
      | none => ([] : List Char)
    let filename := if filename.isEmpty then tierUrl url else filename
    if filename.isEmpty then "download_" ++ toString nowMs else String.mk filename

/-! ## Concrete instances used to settle individual claims -/

/-- A poll trace with 15 failures, one intervening successful active
poll, then one more failure. -/
def c1Trace : List PollStep :=
  List.replicate 15 PollStep.failure ++ [PollStep.success true, PollStep.failure]

/-- A terminal status on the interrupted path whose only partial file
cannot be removed (`os.remove` raises). -/
def c7Info : DownloadInfo :=
  { isPaused := false, errorCode := "31", errorMessage := "", isComplete := false,
    files := [{ path := "part.bin", onDisk := true, isFile := true, removeRaises := true }],
    name := "part.bin", status := "error" }

/-- A fallback run that fails mid-stream and whose cleanup unlink also
raises. -/
def c7Env : SimpleEnv :=
  { getRaises := false, fileExists0 := false, initialUnlinkRaises := false,
    writeRaises := true, cleanupUnlinkRaises := true }

/-- A terminal status carrying the engine's already-exists code `'13'`. -/
def c9Info : DownloadInfo :=
  { isPaused := false, errorCode := "13", errorMessage := "", isComplete := false,
    files := [], name := "n", status := "error" }

/-! ## Supporting lemmas -/

@[simp] theorem failCount_nil : failCount [] = 0 := rfl

@[simp] theorem failCount_cons_failure (t : List PollStep) :
    failCount (.failure :: t) = failCount t + 1 := by
  simp [failCount, List.countP_cons]

@[simp] theorem failCount_cons_success (a : Bool) (t : List PollStep) :
    failCount (.success a :: t) = failCount t := by
  simp [failCount, List.countP_cons]

/-- If the poll loop re-raises, the cumulative number of failures in the
trace together with the starting counter reaches at least 16. -/
theorem pollLoop_raised_failCount (c : Nat) (t : List PollStep)
    (h : pollLoop c t = .raised) : 16 ≤ c + failCount t := by
  induction t generalizing c with
  | nil => simp [pollLoop] at h
  | cons s rest ih =>
    cases s with
    | failure =>
      rw [pollLoop] at h
      simp only [failCount_cons_failure]
      by_cases hc : c + 1 > 15
      · omega
      · simp [hc] at h
        have := ih (c + 1) h
        omega
    | success active =>
      rw [pollLoop] at h
      cases active with
      | true =>
        simp at h
        have := ih c h
        simpa using this
      | false => simp at h

/-- A trace whose failures together with the starting counter stay at or
below 15 never makes the loop re-raise. -/
theorem pollLoop_no_raise_of_few_failures (c : Nat) (t : List PollStep)
    (h : c + failCount t ≤ 15) : pollLoop c t ≠ .raised := by
  intro hr
  have := pollLoop_raised_failCount c t hr
  omega

/-- On a trace whose successful polls all stay active, the 16th
cumulative failure does make the loop re-raise. -/
theorem pollLoop_raises_of_many_failures (c : Nat) (t : List PollStep)
    (hc : c ≤ 15) (hact : ∀ s ∈ t, s ≠ PollStep.success false)
    (h : 16 ≤ c + failCount t) : pollLoop c t = .raised := by
  induction t generalizing c with
  | nil => simp at h; omega
  | cons s rest ih =>
    cases s with
    | failure =>
      rw [pollLoop]
      by_cases hgt : c + 1 > 15
      · simp [hgt]
      · rw [if_neg hgt]
        simp only [failCount_cons_failure] at h
        exact ih (c + 1) (by omega)
          (fun s hs => hact s (List.mem_cons_of_mem _ hs)) (by omega)
    | success active =>
      cases active with
      | false => exact absurd rfl (hact _ (List.mem_cons_self _ _))
      | true =>
        rw [pollLoop, if_pos rfl]
        simp only [failCount_cons_success] at h
        exact ih c hc (fun s hs => hact s (List.mem_cons_of_mem _ hs)) h

theorem find?_map_overwrite (d : List (String × String)) (k v : String)
    (h : d.any (fun p => p.1 == k) = true) :
    (d.map (fun p => if p.1 == k then (k, v) else p)).find? (fun p => p.1 == k)
      = some (k, v) := by
  induction d with
  | nil => simp at h
  | cons p rest ih =>
    by_cases hk : p.1 = k
    · rw [List.map_cons, if_pos (by simpa using hk), List.find?_cons_of_pos]
      simp
    · have hk' : (p.1 == k) = false := by simp [hk]
      simp only [List.any_cons, hk', Bool.false_or] at h
      rw [List.map_cons, if_neg (by simpa using hk),
        List.find?_cons_of_neg _ (by simpa using hk)]
      exact ih h

/-- Setting a key makes `get` of that key return the new value. -/
theorem dictGet_dictSet_self (d : List (String × String)) (k v : String) :
    dictGet (dictSet d k v) k = some v := by
  unfold dictGet dictSet
  by_cases h : d.any (fun p => p.1 == k) = true
  · rw [if_pos h, find?_map_overwrite d k v h]
    rfl
  · rw [if_neg h]
    have hnone : d.find? (fun p => p.1 == k) = none := by
      rw [List.find?_eq_none]
      intro p hp hpk
      exact h (List.any_eq_true.mpr ⟨p, hp, hpk⟩)
    rw [List.find?_append, hnone]
    simp [List.find?]

theorem find?_map_overwrite_ne (d : List (String × String)) (k v k' : String)
    (hne : k' ≠ k) :
    (d.map (fun p => if p.1 == k then (k, v) else p)).find? (fun p => p.1 == k')
      = d.find? (fun p => p.1 == k') := by
  induction d with
  | nil => rfl
  | cons p rest ih =>
    by_cases hk : p.1 = k
    · have hkk' : k ≠ k' := fun e => hne e.symm
      have hp' : p.1 ≠ k' := hk ▸ hkk'
      rw [List.map_cons, if_pos (by simpa using hk),
        List.find?_cons_of_neg _ (by simpa using hkk'),
        List.find?_cons_of_neg _ (by simpa using hp')]
      exact ih
    · rw [List.map_cons, if_neg (by simpa using hk)]
      by_cases hp' : p.1 = k'
      · rw [List.find?_cons_of_pos _ (by simpa using hp'),
          List.find?_cons_of_pos _ (by simpa using hp')]
      · rw [List.find?_cons_of_neg _ (by simpa using hp'),
          List.find?_cons_of_neg _ (by simpa using hp')]
        exact ih

/-- Setting a key leaves `get` of every other key unchanged. -/
theorem dictGet_dictSet_ne (d : List (String × String)) (k v k' : String)
    (hne : k' ≠ k) : dictGet (dictSet d k v) k' = dictGet d k' := by
  unfold dictGet dictSet
  by_cases h : d.any (fun p => p.1 == k) = true
  · rw [if_pos h, find?_map_overwrite_ne d k v k' hne]
  · rw [if_neg h, List.find?_append]
    have hkk' : ([(k, v)].find? fun p => p.1 == k') = none := by
      have : k ≠ k' := fun e => hne e.symm
      simp [this]
    rw [hkk']
    cases d.find? (fun p => p.1 == k') <;> rfl

/-- `update` with a map not containing a key leaves that key's `get`
unchanged. -/
theorem dictGet_dictUpdate_not_mem (u : List (String × String)) (d : List (String × String))
    (k : String) (hk : k ∉ u.map Prod.fst) :
    dictGet (dictUpdate d u) k = dictGet d k := by
  induction u generalizing d with
  | nil => rfl
  | cons p rest ih =>
    simp only [List.map_cons, List.mem_cons, not_or] at hk
    show dictGet (dictUpdate (dictSet d p.1 p.2) rest) k = dictGet d k
    rw [ih (dictSet d p.1 p.2) hk.2, dictGet_dictSet_ne d p.1 p.2 k hk.1]

/-- `update` with a duplicate-free map makes each of its bindings win. -/
theorem dictGet_dictUpdate_mem (u : List (String × String)) (d : List (String × String))
    (k v : String) (hnd : (u.map Prod.fst).Nodup) (hmem : (k, v) ∈ u) :
    dictGet (dictUpdate d u) k = some v := by
  induction u generalizing d with
  | nil => simp at hmem
  | cons p rest ih =>
    simp only [List.map_cons, List.nodup_cons] at hnd
    rcases List.mem_cons.mp hmem with heq | hrest
    · subst heq
      show dictGet (dictUpdate (dictSet d k v) rest) k = some v
      rw [dictGet_dictUpdate_not_mem rest _ k hnd.1, dictGet_dictSet_self]
    · exact ih (dictSet d p.1 p.2) hnd.2 hrest

/-- When the removal pass completes without an `OSError`, no file in the
resulting state both remains on disk and is a regular file. -/
theorem removeFiles_clean (l l' : List FsFile) (h : removeFiles l = (l', none)) :
    ∀ f ∈ l', f.onDisk = true → f.isFile = false := by
  induction l generalizing l' with
  | nil =>
    cases h
    intro f hf
    simp at hf
  | cons g rest ih =>
    rw [removeFiles] at h
    by_cases hd : (g.onDisk && g.isFile) = true
    · rw [if_pos hd] at h
      by_cases hr : g.removeRaises = true
      · rw [if_pos hr] at h
        cases h
      · rw [if_neg hr] at h
        rcases hrm : removeFiles rest with ⟨rest', err⟩
        rw [hrm] at h
        cases h
        intro f hf hdisk
        rcases List.mem_cons.mp hf with heq | hmem
        · subst heq
          simp at hdisk
        · exact ih rest' hrm f hmem hdisk
    · rw [if_neg hd] at h
      rcases hrm : removeFiles rest with ⟨rest', err⟩
      rw [hrm] at h
      cases h
      intro f hf hdisk
      rcases List.mem_cons.mp hf with heq | hmem
      · subst heq
        cases hgf : f.isFile
        · rfl
        · exact absurd (by simp [hdisk, hgf]) hd
      · exact ih rest' hrm f hmem hdisk

/-- The `Content-Disposition` parse is the `filename*=` tier when that
tier is non-empty, else the `filename=` tier. -/
theorem resolveCd_tiers (c : String) :
    resolveCd c.data
      = if tierStar (some c) = [] then tierPlain (some c) else tierStar (some c) := by
  simp only [tierStar, tierPlain, resolveCd]
  by_cases hs : hasSub starNeedle c.data = true <;>
    by_cases hp : hasSub plainNeedle c.data = true <;>
      by_cases he : cdStarValue c.data = [] <;>
        simp [hs, hp, he, List.isEmpty_iff]

/-! ## Claims -/

/-- C1, counterexample: on a trace of 15 failures, one intervening
successful (still active) poll, and one more failure, the loop re-raises
even though its longest run of consecutive failures without an
intervening success is 15 — refuting "an exception escapes only after
more than 15 failed polls with no intervening successful poll" and
"a successful poll resets the retry counter". -/
theorem c1_counterexample :
    pollLoop 0 c1Trace = .raised ∧ maxFailRun c1Trace = 15 := by decide

/-- C1 (amended): during the foreground poll loop, transient poll
failures are tolerated up to 15 cumulative times over the whole loop —
the retry counter is never reset by a successful poll — and the 16th
cumulative failure re-raises the underlying exception (always reached
when the transfer stays active that long). -/
theorem c1_poll_retry_cumulative (c : Nat) (t : List PollStep) :
    (pollLoop c t = .raised → 16 ≤ c + failCount t) ∧
    (c + failCount t ≤ 15 → pollLoop c t ≠ .raised) ∧
    (c ≤ 15 → (∀ s ∈ t, s ≠ PollStep.success false) → 16 ≤ c + failCount t →
      pollLoop c t = .raised) :=
  ⟨pollLoop_raised_failCount c t, pollLoop_no_raise_of_few_failures c t,
    pollLoop_raises_of_many_failures c t⟩

/-- Witness for C1: with a fresh counter, a trace of 16 straight
failures makes the loop re-raise. -/
theorem c1_witness :
    pollLoop 0 (List.replicate 16 PollStep.failure) = .raised :=
  (c1_poll_retry_cumulative 0 (List.replicate 16 PollStep.failure)).2.2
    (by decide) (by decide) (by decide)

/-- C4: a terminal status carrying the engine's already-exists code
`'13'` (and not paused) is returned as a success: no error is raised, no
purge and no file cleanup happens, and the status comes back unchanged. -/
theorem c4_already_exists_success (info : DownloadInfo)
    (hp : info.isPaused = false) (hc : info.errorCode = "13") :
    finalize info = .ok 0 info := by
  simp [finalize, hp, hc]

/-- Witness for C4. -/
theorem c4_witness :
    finalize { isPaused := false, errorCode := "13", errorMessage := "",
               isComplete := false, files := [], name := "a", status := "error" }
      = .ok 0 { isPaused := false, errorCode := "13", errorMessage := "",
                isComplete := false, files := [], name := "a", status := "error" } :=
  c4_already_exists_success _ rfl rfl

/-- C5: engine initialization makes at most 2 launch attempts; a first
success returns after 1 attempt, a first failure is followed by exactly
one more attempt, and when both attempts fail the exception re-raised is
the one from the (last) failed attempt itself. -/
theorem c5_init_retry {ε : Type} (f : Nat → Option ε) :
    (init_aria2 f).attempts ≤ 2 ∧
    (f 0 = none → init_aria2 f = .ok 1) ∧
    (∀ e1, f 0 = some e1 → f 1 = none → init_aria2 f = .ok 2) ∧
    (∀ e1 e2, f 0 = some e1 → f 1 = some e2 →
      init_aria2 f = .raised (some e2) 2) := by
  rcases h0 : f 0 with _ | e1 <;> rcases h1 : f 1 with _ | e2 <;>
    simp [init_aria2, initRetryLoop, h0, h1, InitOutcome.attempts]

/-- Witness for C5: first attempt fails, the retry succeeds. -/
theorem c5_witness :
    init_aria2 (fun i => if i = 0 then some 7 else (none : Option Nat)) = .ok 2 :=
  (c5_init_retry (fun i => if i = 0 then some 7 else (none : Option Nat))).2.2.1
    7 rfl rfl

/-- C2: the fallback transport resolves the output filename by strict
priority — a non-empty `out` option wins; else the `Content-Disposition`
`filename*=` parse when non-empty; else the `filename=` parse when
non-empty; else the decoded basename of the URL path when non-empty;
else the timestamp-derived default — each later tier used only when all
earlier tiers yield an empty result. -/
theorem c2_filename_priority (url : String) (cd : Option String)
    (options : Option (List (String × String))) (nowMs : Nat) :
    (tierOut options ≠ "" →
      resolve_simple_filename url cd options nowMs = tierOut options) ∧
    (tierOut options = "" → tierStar cd ≠ [] →
      resolve_simple_filename url cd options nowMs = String.mk (tierStar cd)) ∧
    (tierOut options = "" → tierStar cd = [] → tierPlain cd ≠ [] →
      resolve_simple_filename url cd options nowMs = String.mk (tierPlain cd)) ∧
    (tierOut options = "" → tierStar cd = [] → tierPlain cd = [] →
      tierUrl url ≠ [] →
      resolve_simple_filename url cd options nowMs = String.mk (tierUrl url)) ∧
    (tierOut options = "" → tierStar cd = [] → tierPlain cd = [] →
      tierUrl url = [] →
      resolve_simple_filename url cd options nowMs
        = "download_" ++ toString nowMs) := by
  have hres : resolve_simple_filename url cd options nowMs =
      if tierOut options ≠ "" then tierOut options
      else if tierStar cd ≠ [] then String.mk (tierStar cd)
      else if tierPlain cd ≠ [] then String.mk (tierPlain cd)
      else if tierUrl url ≠ [] then String.mk (tierUrl url)
      else "download_" ++ toString nowMs := by
    cases cd with
    | none =>
      by_cases ho : tierOut options = "" <;>
        by_cases hu : tierUrl url = [] <;>
          simp [resolve_simple_filename, tierStar, tierPlain, ho, hu,
            List.isEmpty_iff]
    | some c =>
      simp only [resolve_simple_filename, resolveCd_tiers c]
      by_cases ho : tierOut options = "" <;>
        by_cases hs : tierStar (some c) = [] <;>
          by_cases hp : tierPlain (some c) = [] <;>
            by_cases hu : tierUrl url = [] <;>
              simp [ho, hs, hp, hu, List.isEmpty_iff]
  refine ⟨fun h1 => ?_, fun h1 h2 => ?_, fun h1 h2 h3 => ?_,
    fun h1 h2 h3 h4 => ?_, fun h1 h2 h3 h4 => ?_⟩ <;>
    simp [hres, h1, *]

/-- Witness for C2: with no `out` option and no `Content-Disposition`,
the URL-basename tier resolves (and percent-decodes) the name. -/
theorem c2_witness :
    resolve_simple_filename "http://host/dl/a%20b.txt" none none 5 = "a b.txt" := by
  have h := (c2_filename_priority "http://host/dl/a%20b.txt" none none 5).2.2.2.1
    (by decide) (by decide) (by decide) (by decide)
  rw [h]
  decide

/-- C3: when `_download` raises `DownloadInterrupted` for an incomplete
transfer (engine error code `'31'`), every output file that existed as a
regular file has been removed by the time the error is raised — no
declared output file remains on disk as a regular file; and when the
fallback transport raises its wrapping failure after the GET succeeded,
the (partially written) destination file has been deleted first. -/
theorem c3_interrupted_cleanup :
    (∀ (info : DownloadInfo) (files' : List FsFile),
      info.isComplete = false →
      finalize info = .err .downloadInterrupted files' →
      ∀ f ∈ files', f.onDisk = true → f.isFile = false) ∧
    (∀ env : SimpleEnv, env.getRaises = false →
      (simple_download env).kind = .wrappedError →
      (simple_download env).fileOnDisk = false) := by
  constructor
  · intro info files' hic hfin
    rw [finalize] at hfin
    by_cases hp : info.isPaused
    · simp [hp] at hfin
    · rw [if_neg hp] at hfin
      by_cases h0 : info.errorCode = "0"
      · simp [h0, hic] at hfin
      · rw [if_pos h0] at hfin
        by_cases h13 : info.errorCode = "13"
        · simp [h13] at hfin
        · rw [if_neg h13] at hfin
          by_cases h31 : info.errorCode = "31"
          · rw [if_pos h31, hic] at hfin
            simp only [Bool.not_false, if_true] at hfin
            rcases hrm : removeFiles info.files with ⟨l', e⟩
            rw [hrm] at hfin
            cases e with
            | none =>
              cases hfin
              exact removeFiles_clean info.files files' hrm
            | some p => cases hfin
          · rw [if_neg h31] at hfin
            cases hfin
  · intro env hg hk
    rcases env with ⟨g, e0, iur, wr, cur⟩
    simp only at hg
    subst hg
    cases e0 <;> cases iur <;> cases wr <;> cases cur <;>
      simp_all [simple_download, simpleCleanup]

/-- Witness for C3: an interrupted incomplete transfer with two files —
one removable regular file, one directory — leaves no regular file; a
mid-stream fallback failure with working cleanup leaves no file. -/
theorem c3_witness :
    (∀ f ∈ ([⟨"a", false, true, false⟩, ⟨"b", true, false, false⟩] : List FsFile),
      f.onDisk = true → f.isFile = false) ∧
    (simple_download ⟨false, false, false, true, false⟩).fileOnDisk = false :=
  ⟨c3_interrupted_cleanup.1
      ⟨false, "31", "", false,
        [⟨"a", true, true, false⟩, ⟨"b", true, false, false⟩], "a", "error"⟩
      _ rfl (by decide),
    c3_interrupted_cleanup.2 ⟨false, false, false, true, false⟩ rfl (by decide)⟩

/-- C6, counterexample: with caller options `{'dir': 'x'}` and no
`save_dir`, the submitted map carries `dir = 'download'` — the caller's
value for the `'dir'` key does not win over the controller's assignment,
refuting "for every key present in the caller's options the caller's
value wins". -/
theorem c6_counterexample :
    ("dir", "x") ∈ [("dir", "x")] ∧
    dictGet (buildOptions [] (some [("dir", "x")]) none) "dir" = some "download" ∧
    dictGet (buildOptions [] (some [("dir", "x")]) none) "dir" ≠ some "x" := by
  decide

/-- C6 (amended): the submitted option map is freshly built per request:
proxy-derived defaults plus `auto-file-renaming='false'` and
`allow-overwrite='false'` are inserted first and the caller's options are
merged on top, the caller's value winning for every key except `'dir'`;
the `'dir'` key is then assigned from `save_dir` (or the module download
directory), overriding any caller-supplied `'dir'`. -/
theorem c6_option_merge (proxyDefaults caller : List (String × String))
    (saveDir : Option String) (hnd : (caller.map Prod.fst).Nodup) :
    (∀ k v, (k, v) ∈ caller → k ≠ "dir" →
      dictGet (buildOptions proxyDefaults (some caller) saveDir) k = some v) ∧
    dictGet (buildOptions proxyDefaults (some caller) saveDir) "dir"
      = some (saveDir.getD download_path) ∧
    (∀ k, k ∉ caller.map Prod.fst → k ≠ "dir" →
      dictGet (buildOptions proxyDefaults (some caller) saveDir) k
        = dictGet (engineDefaults proxyDefaults) k) ∧
    dictGet (engineDefaults proxyDefaults) "allow-overwrite" = some "false" ∧
    dictGet (engineDefaults proxyDefaults) "auto-file-renaming" = some "false" := by
  have hb : buildOptions proxyDefaults (some caller) saveDir
      = dictSet (dictUpdate (engineDefaults proxyDefaults) caller) "dir"
          (saveDir.getD download_path) := by
    cases saveDir <;> rfl
  refine ⟨?_, ?_, ?_, ?_, ?_⟩
  · intro k v hmem hk
    rw [hb, dictGet_dictSet_ne _ _ _ _ hk,
      dictGet_dictUpdate_mem caller _ k v hnd hmem]
  · rw [hb, dictGet_dictSet_self]
  · intro k hk hkd
    rw [hb, dictGet_dictSet_ne _ _ _ _ hkd,
      dictGet_dictUpdate_not_mem caller _ k hk]
  · exact dictGet_dictSet_self _ _ _
  · unfold engineDefaults
    rw [dictGet_dictSet_ne _ _ _ _ (by decide), dictGet_dictSet_self]

/-- Witness for C6: a caller key other than `'dir'` wins over the
defaults. -/
theorem c6_witness :
    dictGet (buildOptions [("user-agent", "ua")]
      (some [("allow-overwrite", "true")]) none) "allow-overwrite"
      = some "true" :=
  (c6_option_merge [("user-agent", "ua")] [("allow-overwrite", "true")] none
    (by decide)).1 "allow-overwrite" "true" (by decide) (by decide)

/-- C7, counterexample: when removing the partial file raises, the
`OSError` escapes instead of `DownloadInterrupted`; when the fallback
cleanup `unlink` raises, that exception escapes raw instead of the
wrapping `RuntimeError` — refuting "the deletion failure is logged but
never propagated and the originally intended error is still raised". -/
theorem c7_counterexample :
    finalize c7Info
      = .err (.osError "part.bin")
          [⟨"part.bin", true, true, true⟩] ∧
    (simple_download c7Env).kind = .rawError ∧
    (simple_download c7Env).kind ≠ .wrappedError := by decide

/-- C7 (amended): partial-file cleanup is unguarded: when deleting a
partially written file itself fails, the deletion exception propagates to
the caller in place of the originally intended error (the Interrupted
error on the engine path, the wrapping failure on the fallback path). -/
theorem c7_cleanup_unguarded :
    (∀ (info : DownloadInfo) (p : String) (files' : List FsFile),
      info.isPaused = false → info.errorCode = "31" → info.isComplete = false →
      removeFiles info.files = (files', some p) →
      finalize info = .err (.osError p) files') ∧
    (∀ env : SimpleEnv, env.getRaises = false → env.cleanupUnlinkRaises = true →
      ((env.fileExists0 && env.initialUnlinkRaises) = true ∨ env.writeRaises = true) →
      (simple_download env).kind = .rawError) := by
  constructor
  · intro info p files' hp h31 hic hrm
    simp [finalize, hp, h31, hic, hrm]
  · intro env hg hc hor
    rcases env with ⟨g, e0, iur, wr, cur⟩
    simp only at hg hc
    subst hg
    subst hc
    cases e0 <;> cases iur <;> cases wr <;>
      simp_all [simple_download, simpleCleanup]

/-- Witness for C7: a raising removal on the engine path surfaces as the
`OSError` for that path. -/
theorem c7_witness :
    finalize ⟨false, "31", "", false, [⟨"q", true, true, true⟩], "q", "error"⟩
      = .err (.osError "q") [⟨"q", true, true, true⟩] :=
  c7_cleanup_unguarded.1
    ⟨false, "31", "", false, [⟨"q", true, true, true⟩], "q", "error"⟩
    "q" [⟨"q", true, true, true⟩] rfl rfl rfl (by decide)

/-- C8: a background request with no engine instance running and no
engine executable found is rejected with an error before any transfer
starts — the fallback transport is never chosen for a background
request. -/
theorem c8_background_requires_engine (env : DispatchEnv)
    (hr : env.aria2Running = false) (hp : env.resolvedPath = none) :
    download env true = .backgroundError ∧
    ∀ e : DispatchEnv, download e true ≠ .fallback := by
  constructor
  · simp [download, hr, hp]
  · intro e
    unfold download
    by_cases h : (e.aria2Running || e.resolvedPath.isSome) = true <;> simp [h]

/-- Witness for C8. -/
theorem c8_witness : download ⟨false, none⟩ true = .backgroundError :=
  (c8_background_requires_engine ⟨false, none⟩ rfl rfl).1

/-- C9, counterexample: a terminal status with the already-exists code
`'13'` is classified as a success, yet `purge()` is called zero times —
refuting "purge is called exactly once on every success". -/
theorem c9_counterexample :
    (finalize c9Info).isOk = true ∧ (finalize c9Info).purges = 0 := by decide

/-- C9 (amended): `purge()` is called exactly once on the
normal-completion success path (not paused, error code `'0'`, complete)
and zero times on every other path — in particular, the already-exists
success path returns without purging, and no error path purges. -/
theorem c9_purge_on_completion (info : DownloadInfo) :
    (finalize info).purges
      = (if info.isPaused = false ∧ info.errorCode = "0" ∧ info.isComplete = true
         then 1 else 0) ∧
    ((finalize info).isOk = false → (finalize info).purges = 0) := by
  constructor
  · rw [finalize]
    by_cases hp : info.isPaused
    · simp [hp, FinalizeResult.purges]
    · rw [if_neg hp]
      by_cases h0 : info.errorCode = "0"
      · rw [if_neg (by simp [h0])]
        by_cases hcmp : info.isComplete <;>
          simp [h0, hcmp, hp, FinalizeResult.purges,
            Bool.not_eq_true _ ▸ hp]
      · rw [if_pos h0]
        by_cases h13 : info.errorCode = "13"
        · simp [h13, h0, FinalizeResult.purges]
        · rw [if_neg h13]
          by_cases h31 : info.errorCode = "31"
          · rw [if_pos h31]
            by_cases hcmp : info.isComplete
            · simp [hcmp, h0, FinalizeResult.purges]
            · simp only [hcmp, Bool.not_false, if_true]
              rcases hrm : removeFiles info.files with ⟨l, e⟩
              cases e <;> simp [hrm, h0, FinalizeResult.purges]
          · rw [if_neg h31]
            simp [h0, FinalizeResult.purges]
  · intro h
    rcases hf : finalize info with _ | _
    · rw [hf] at h
      simp [FinalizeResult.isOk] at h
    · simp [FinalizeResult.purges]

/-- Witness for C9: a completed transfer purges exactly once. -/
theorem c9_witness :
    (finalize ⟨false, "0", "", true, [], "n", "complete"⟩).purges = 1 := by
  have h := (c9_purge_on_completion ⟨false, "0", "", true, [], "n", "complete"⟩).1
  rw [h]
  decide

/-- C10: when the resolved destination file already exists and the GET
succeeded, the fallback transport deletes the existing file and streams
the download again, returning a fresh success — it never classifies an
existing destination as an already-exists success (every success over a
pre-existing file deleted it first), unlike the engine path whose default
submission options forbid overwriting and renaming. -/
theorem c10_fallback_overwrites (env : SimpleEnv)
    (hg : env.getRaises = false) (he : env.fileExists0 = true)
    (hu : env.initialUnlinkRaises = false) (hw : env.writeRaises = false) :
    simple_download env = ⟨.ok, true, true⟩ ∧
    (∀ e : SimpleEnv, (simple_download e).kind = .ok → e.fileExists0 = true →
      (simple_download e).deletedExisting = true) ∧
    (∀ pd, dictGet (engineDefaults pd) "allow-overwrite" = some "false") ∧
    (∀ pd, dictGet (engineDefaults pd) "auto-file-renaming" = some "false") := by
  refine ⟨?_, ?_, ?_, ?_⟩
  · simp [simple_download, hg, he, hu, hw]
  · intro e hk he0
    rcases e with ⟨g, e0, iur, wr, cur⟩
    simp only at he0
    subst he0
    cases g <;> cases iur <;> cases wr <;> cases cur <;>
      simp_all [simple_download, simpleCleanup]
  · intro pd
    exact dictGet_dictSet_self _ _ _
  · intro pd
    unfold engineDefaults
    rw [dictGet_dictSet_ne _ _ _ _ (by decide), dictGet_dictSet_self]

/-- Witness for C10: an existing destination file is deleted and
re-downloaded. -/
theorem c10_witness :
    simple_download ⟨false, true, false, false, false⟩
      = ⟨.ok, true, true⟩ :=
  (c10_fallback_overwrites ⟨false, true, false, false, false⟩
    rfl rfl rfl rfl).1

end Downloader
